import Mathlib

/-!
Shallow embedding of the SuperTux deferred drawing queue
(`src/video/canvas.cpp`) and proofs about its ordering, filtering,
transform and request-construction behaviour.

Modelling choices:
* scalars that are `float` in the source are modelled as `ℚ` (exact
  arithmetic; the claims under study are about data flow, ordering and
  algebraic identities, not float rounding);
* the per-frame obstack arena and the pointer queue are modelled by a
  `List` of request values in submission order;
* `std::stable_sort` with the comparator `r1->layer < r2->layer` is
  modelled by insertion sort over the non-strict order `layer ≤ layer`,
  which is the unique stable sort for that strict-weak comparator;
* the Painter collaborator is modelled by the list of calls `render`
  makes to it, each carrying the entry point used and the request passed;
* the shared `std::shared_ptr<Color>` output cell of a pixel query is
  modelled by a cell id; the synchronous write `get_pixel` itself performs
  on the cell is returned alongside the new canvas state.
-/

namespace Video

/-- 2D float vector (`math/vector.hpp`); components modelled as `ℚ`. -/
structure Vector where
  x : ℚ
  y : ℚ
  deriving DecidableEq, Repr

instance : Add Vector := ⟨fun a b => ⟨a.x + b.x, a.y + b.y⟩⟩

instance : Sub Vector := ⟨fun a b => ⟨a.x - b.x, a.y - b.y⟩⟩

/-- Modelled from the spec: `Vector::to_int_vec` (`math/vector.hpp`, which is
not under `src/`).  The spec's coordinate transform reads
`device_pos = (world_pos − floor(context.transform.translation)) + viewport.top_left`,
so the integer conversion is componentwise floor. -/
def Vector.to_int_vec (v : Vector) : Vector := ⟨(⌊v.x⌋ : ℚ), (⌊v.y⌋ : ℚ)⟩

/-- Float size pair (`math/sizef.hpp`, not under `src/`). -/
structure Sizef where
  width : ℚ
  height : ℚ
  deriving DecidableEq, Repr

/-- Float rectangle (`math/rectf.hpp`, not under `src/`): two corner points,
`p1` top-left and `p2` bottom-right. -/
structure Rectf where
  p1 : Vector
  p2 : Vector
  deriving DecidableEq, Repr

/-- The `Rectf(Vector, Sizef)` constructor. -/
def Rectf.fromPosSize (p : Vector) (s : Sizef) : Rectf :=
  ⟨p, ⟨p.x + s.width, p.y + s.height⟩⟩

def Rectf.get_left (r : Rectf) : ℚ := r.p1.x

def Rectf.get_top (r : Rectf) : ℚ := r.p1.y

def Rectf.get_right (r : Rectf) : ℚ := r.p2.x

def Rectf.get_bottom (r : Rectf) : ℚ := r.p2.y

def Rectf.get_size (r : Rectf) : Sizef := ⟨r.p2.x - r.p1.x, r.p2.y - r.p1.y⟩

def Rectf.get_width (r : Rectf) : ℚ := r.p2.x - r.p1.x

def Rectf.get_height (r : Rectf) : ℚ := r.p2.y - r.p1.y

/-- Integer rectangle (`math/rect.hpp`, not under `src/`); used for the
viewport. -/
structure Rect where
  left : Int
  top : Int
  right : Int
  bottom : Int
  deriving DecidableEq, Repr

def Rect.get_width (r : Rect) : Int := r.right - r.left

def Rect.get_height (r : Rect) : Int := r.bottom - r.top

/-- RGBA color (`video/color.hpp`, not under `src/`); channels modelled
as `ℚ`. -/
structure Color where
  red : ℚ
  green : ℚ
  blue : ℚ
  alpha : ℚ
  deriving DecidableEq, Repr

/-- The `Color(r, g, b)` constructor, whose alpha defaults to `1.0`
(opaque). -/
def Color.rgb (r g b : ℚ) : Color := ⟨r, g, b, 1⟩

/-- Blend mode (`video/blend.hpp`, not under `src/`): the canvas only passes
it through, so it is modelled as an opaque tag; `⟨0⟩` stands for the
default-constructed `Blend()`. -/
structure Blend where
  mode : Nat
  deriving DecidableEq, Repr

/-- Gradient direction enum (not under `src/`); passed through untouched. -/
inductive GradientDirection
  | VERTICAL
  | HORIZONTAL
  deriving DecidableEq, Repr

/-- `PaintStyle` (`video/canvas.hpp`, not under `src/`): the accessors
`draw_surface_part` reads. -/
structure PaintStyle where
  color : Color
  alpha : ℚ
  blend : Blend
  deriving DecidableEq, Repr

def PaintStyle.get_color (s : PaintStyle) : Color := s.color

def PaintStyle.get_alpha (s : PaintStyle) : ℚ := s.alpha

def PaintStyle.get_blend (s : PaintStyle) : Blend := s.blend

/-- The drawing transform of the context (`video/drawing_transform.hpp`, not
under `src/`): the fields `canvas.cpp` reads.  `flip` is a bitmask. -/
structure DrawingTransform where
  translation : Vector
  flip : Nat
  alpha : ℚ
  deriving DecidableEq, Repr

/-- The slice of `DrawingContext` that `canvas.cpp` reads: the active
transform, the clip rectangle and the integer viewport. -/
structure DrawingContext where
  transform : DrawingTransform
  cliprect : Rectf
  viewport : Rect
  deriving DecidableEq, Repr

/-- The slice of `Surface` that `canvas.cpp` reads (`video/surface.hpp`, not
under `src/`): sizes, intrinsic flip, source region, and the two texture
handles (modelled as ids).  A `Surface` value models a non-null
`SurfacePtr`, so the `assert(surface)` preconditions hold by typing. -/
structure Surface where
  width : Int
  height : Int
  flip : Nat
  region : Rectf
  texture : Nat
  displacement_texture : Nat
  deriving DecidableEq, Repr

/-- Request type tag (`video/drawing_request.hpp`, not under `src/`). -/
inductive RequestType
  | TEXTURE
  | GRADIENT
  | FILLRECT
  | INVERSEELLIPSE
  | LINE
  | TRIANGLE
  | GETPIXEL
  deriving DecidableEq, Repr

/-- `TextureRequest` payload.  Fields an operation does not assign keep the
C++ default member initialisers (`angle = 0`, default `Blend()`). -/
structure TextureRequest where
  srcrects : List Rectf
  dstrects : List Rectf
  texture : Nat
  displacement_texture : Nat
  color : Color
  blend : Blend
  angle : ℚ
  deriving DecidableEq, Repr

/-- `GradientRequest` payload. -/
structure GradientRequest where
  top : Color
  bottom : Color
  direction : GradientDirection
  region : Rectf
  blend : Blend
  deriving DecidableEq, Repr

/-- `FillRectRequest` payload. -/
structure FillRectRequest where
  pos : Vector
  size : Vector
  color : Color
  radius : ℚ
  deriving DecidableEq, Repr

/-- `InverseEllipseRequest` payload. -/
structure InverseEllipseRequest where
  pos : Vector
  size : Vector
  color : Color
  deriving DecidableEq, Repr

/-- `LineRequest` payload. -/
structure LineRequest where
  pos : Vector
  dest_pos : Vector
  color : Color
  deriving DecidableEq, Repr

/-- `TriangleRequest` payload. -/
structure TriangleRequest where
  pos1 : Vector
  pos2 : Vector
  pos3 : Vector
  color : Color
  deriving DecidableEq, Repr

/-- `GetPixelRequest` payload: the device-space position and the shared
output cell (modelled by its id). -/
structure GetPixelRequest where
  pos : Vector
  color_ptr : Nat
  deriving DecidableEq, Repr

/-- Variant payload of a drawing request: the closed set of request
subclasses of `video/drawing_request.hpp`.  In C++ the agreement of the
`type` tag with the concrete subclass is an invariant maintained at
construction; the sum type models it structurally. -/
inductive RequestData
  | texture (req : TextureRequest)
  | gradient (req : GradientRequest)
  | fillrect (req : FillRectRequest)
  | inverseellipse (req : InverseEllipseRequest)
  | line (req : LineRequest)
  | triangle (req : TriangleRequest)
  | getpixel (req : GetPixelRequest)
  deriving DecidableEq, Repr

/-- The `type` tag of a request payload. -/
def RequestData.type : RequestData → RequestType
  | .texture _ => .TEXTURE
  | .gradient _ => .GRADIENT
  | .fillrect _ => .FILLRECT
  | .inverseellipse _ => .INVERSEELLIPSE
  | .line _ => .LINE
  | .triangle _ => .TRIANGLE
  | .getpixel _ => .GETPIXEL

/-- The source rectangles stored in a texture request (`[]` for the other
variants). -/
def RequestData.srcrects : RequestData → List Rectf
  | .texture req => req.srcrects
  | _ => []

/-- The destination rectangles stored in a texture request (`[]` for the
other variants). -/
def RequestData.dstrects : RequestData → List Rectf
  | .texture req => req.dstrects
  | _ => []

/-- The single `color` field stored in a request payload, for the variants
that have one. -/
def RequestData.color : RequestData → Option Color
  | .texture req => some req.color
  | .fillrect req => some req.color
  | .inverseellipse req => some req.color
  | .line req => some req.color
  | .triangle req => some req.color
  | _ => none

/-- The `top` color of a gradient request. -/
def RequestData.top : RequestData → Option Color
  | .gradient req => some req.top
  | _ => none

/-- The `bottom` color of a gradient request. -/
def RequestData.bottom : RequestData → Option Color
  | .gradient req => some req.bottom
  | _ => none

/-- The positional fields stored in a request payload: the device-space
anchor points the canvas wrote (for texture requests, the top-left corner of
each destination rectangle; sizes are attached to these anchors). -/
def RequestData.positions : RequestData → List Vector
  | .texture req => req.dstrects.map (fun r => r.p1)
  | .gradient req => [req.region.p1, req.region.p2]
  | .fillrect req => [req.pos]
  | .inverseellipse req => [req.pos]
  | .line req => [req.pos, req.dest_pos]
  | .triangle req => [req.pos1, req.pos2, req.pos3]
  | .getpixel req => [req.pos]

/-- A drawing request: the base fields of `DrawingRequest` plus the variant
payload.  `GetPixelRequest` construction leaves the base defaults
(`flip = NO_FLIP`, `alpha = 1`). -/
structure DrawingRequest where
  layer : Int
  flip : Nat
  alpha : ℚ
  data : RequestData
  deriving DecidableEq, Repr

/-- The `type` tag of a request. -/
def DrawingRequest.type (r : DrawingRequest) : RequestType := r.data.type

/-- Modelled from the spec: the lightmap reference layer constant
(`video/layer.hpp`, not under `src/`).  The claims depend only on its being
a fixed integer constant, not on its numeric value. -/
def LAYER_LIGHTMAP : Int := 450

/-- Modelled from the spec: the fixed layer assigned to pixel queries
(`video/layer.hpp`, not under `src/`).  The claims depend only on its being
a fixed integer constant, not on its numeric value. -/
def LAYER_GETPIXEL : Int := 1200

/-- `Canvas::Filter` (`video/canvas.hpp`, not under `src/`): the optional
band filter `render` applies around the lightmap reference layer. -/
inductive Filter
  | ALL_LAYERS
  | BELOW_LIGHTMAP
  | ABOVE_LIGHTMAP
  deriving DecidableEq, Repr

/-- One call `render` makes to the Painter collaborator: the entry point
invoked and the request passed to it. -/
inductive PainterCall
  | draw_texture (request : DrawingRequest)
  | draw_gradient (request : DrawingRequest)
  | draw_filled_rect (request : DrawingRequest)
  | draw_inverse_ellipse (request : DrawingRequest)
  | draw_line (request : DrawingRequest)
  | draw_triangle (request : DrawingRequest)
  | get_pixel (request : DrawingRequest)
  deriving DecidableEq, Repr

/-- The request a Painter call carries. -/
def PainterCall.request : PainterCall → DrawingRequest
  | .draw_texture r => r
  | .draw_gradient r => r
  | .draw_filled_rect r => r
  | .draw_inverse_ellipse r => r
  | .draw_line r => r
  | .draw_triangle r => r
  | .get_pixel r => r

/-- The request type a Painter entry point is the handler of. -/
def PainterCall.tag : PainterCall → RequestType
  | .draw_texture _ => .TEXTURE
  | .draw_gradient _ => .GRADIENT
  | .draw_filled_rect _ => .FILLRECT
  | .draw_inverse_ellipse _ => .INVERSEELLIPSE
  | .draw_line _ => .LINE
  | .draw_triangle _ => .TRIANGLE
  | .get_pixel _ => .GETPIXEL

/-- The canvas: its context reference and the per-frame request queue in
submission order.  The obstack arena is represented by the queue itself. -/
structure Canvas where
  m_context : DrawingContext
  m_requests : List DrawingRequest
  deriving DecidableEq, Repr

/-- `Canvas::apply_translate`. -/
def Canvas.apply_translate (c : Canvas) (pos : Vector) : Vector :=
  let translation := c.m_context.transform.translation.to_int_vec
  (pos - translation) + ⟨(c.m_context.viewport.left : ℚ), (c.m_context.viewport.top : ℚ)⟩

/-- `Canvas::clear`: every request is destructed and the queue emptied. -/
def Canvas.clear (c : Canvas) : Canvas := { c with m_requests := [] }

/-- The non-strict order induced by the sort comparator
`r1->layer < r2->layer`: a stable sort for that comparator keeps `r1` before
`r2` exactly when `¬(r2.layer < r1.layer)`, i.e. `r1.layer ≤ r2.layer`. -/
def layerLe (r1 r2 : DrawingRequest) : Prop := r1.layer ≤ r2.layer

instance : DecidableRel layerLe :=
  fun r1 r2 => inferInstanceAs (Decidable (r1.layer ≤ r2.layer))

instance : IsTotal DrawingRequest layerLe := ⟨fun a b => Int.le_total a.layer b.layer⟩

instance : IsTrans DrawingRequest layerLe := ⟨fun _ _ _ h1 h2 => le_trans h1 h2⟩

/-- The `std::stable_sort` call of `Canvas::render`, modelled as insertion
sort (for a strict-weak comparator the output of a stable sort is unique,
so any stable sort models it). -/
def sortRequests (l : List DrawingRequest) : List DrawingRequest :=
  List.insertionSort layerLe l

/-- The dispatch switch of `Canvas::render`: every variant tag goes to the
corresponding Painter entry point. -/
def dispatchRequest (request : DrawingRequest) : PainterCall :=
  match request.data with
  | .texture _ => .draw_texture request
  | .gradient _ => .draw_gradient request
  | .fillrect _ => .draw_filled_rect request
  | .inverseellipse _ => .draw_inverse_ellipse request
  | .line _ => .draw_line request
  | .triangle _ => .draw_triangle request
  | .getpixel _ => .get_pixel request

/-- The dispatch loop of `Canvas::render`: band filter (`continue`) then the
switch on the variant tag. -/
def renderLoop (filter : Filter) : List DrawingRequest → List PainterCall
  | [] => []
  | request :: rest =>
    if filter = Filter.BELOW_LIGHTMAP ∧ LAYER_LIGHTMAP ≤ request.layer then
      renderLoop filter rest
    else if filter = Filter.ABOVE_LIGHTMAP ∧ request.layer ≤ LAYER_LIGHTMAP then
      renderLoop filter rest
    else
      dispatchRequest request :: renderLoop filter rest

/-- `Canvas::render`: stable-sort the queue by layer, then run the dispatch
loop.  The result is the sequence of Painter calls of this flush. -/
def Canvas.render (c : Canvas) (filter : Filter) : List PainterCall :=
  renderLoop filter (sortRequests c.m_requests)

/-- `Canvas::draw_surface` (full overload), with its clip-rejection test. -/
def Canvas.draw_surface (c : Canvas) (surface : Surface) (position : Vector)
    (angle : ℚ) (color : Color) (blend : Blend) (layer : Int) : Canvas :=
  if position.x > c.m_context.cliprect.get_right ∨
     position.y > c.m_context.cliprect.get_bottom ∨
     position.x + (surface.width : ℚ) < c.m_context.cliprect.get_left ∨
     position.y + (surface.height : ℚ) < c.m_context.cliprect.get_top then
    c
  else
    let request : DrawingRequest :=
      { layer := layer
        flip := Nat.xor c.m_context.transform.flip surface.flip
        alpha := c.m_context.transform.alpha
        data := RequestData.texture
          { srcrects := [surface.region]
            dstrects := [Rectf.fromPosSize (c.apply_translate position)
                          ⟨(surface.width : ℚ), (surface.height : ℚ)⟩]
            texture := surface.texture
            displacement_texture := surface.displacement_texture
            color := color
            blend := blend
            angle := angle } }
    { c with m_requests := c.m_requests ++ [request] }

/-- `Canvas::draw_surface` (position/layer overload): delegates with angle
`0`, white color and default blend. -/
def Canvas.draw_surface' (c : Canvas) (surface : Surface) (position : Vector)
    (layer : Int) : Canvas :=
  c.draw_surface surface position 0 (Color.rgb 1 1 1) ⟨0⟩ layer

/-- `Canvas::draw_surface_part`. -/
def Canvas.draw_surface_part (c : Canvas) (surface : Surface)
    (srcrect dstrect : Rectf) (layer : Int) (style : PaintStyle) : Canvas :=
  let request : DrawingRequest :=
    { layer := layer
      flip := Nat.xor c.m_context.transform.flip surface.flip
      alpha := c.m_context.transform.alpha * style.get_alpha
      data := RequestData.texture
        { srcrects := [srcrect]
          dstrects := [Rectf.fromPosSize (c.apply_translate dstrect.p1) dstrect.get_size]
          texture := surface.texture
          displacement_texture := surface.displacement_texture
          color := style.get_color
          blend := style.get_blend
          angle := 0 } }
  { c with m_requests := c.m_requests ++ [request] }

/-- `Canvas::draw_surface_scaled`: delegates to `draw_surface_part` with the
whole surface as source rectangle. -/
def Canvas.draw_surface_scaled (c : Canvas) (surface : Surface) (dstrect : Rectf)
    (layer : Int) (style : PaintStyle) : Canvas :=
  c.draw_surface_part surface ⟨⟨0, 0⟩, ⟨(surface.width : ℚ), (surface.height : ℚ)⟩⟩
    dstrect layer style

/-- `Canvas::draw_surface_batch`.  The source body contains no check that
the two rectangle sequences have equal lengths: `srcrects` is stored as
given and each `dstrect` is rebuilt from its translated top-left corner and
its size. -/
def Canvas.draw_surface_batch (c : Canvas) (surface : Surface)
    (srcrects dstrects : List Rectf) (color : Color) (layer : Int) : Canvas :=
  let request : DrawingRequest :=
    { layer := layer
      flip := Nat.xor c.m_context.transform.flip surface.flip
      alpha := c.m_context.transform.alpha
      data := RequestData.texture
        { srcrects := srcrects
          dstrects := dstrects.map
            (fun dstrect => Rectf.fromPosSize (c.apply_translate dstrect.p1) dstrect.get_size)
          texture := surface.texture
          displacement_texture := surface.displacement_texture
          color := color
          blend := ⟨0⟩
          angle := 0 } }
  { c with m_requests := c.m_requests ++ [request] }

/-- `Canvas::draw_gradient`. -/
def Canvas.draw_gradient (c : Canvas) (top bottom : Color) (layer : Int)
    (direction : GradientDirection) (region : Rectf) (blend : Blend) : Canvas :=
  let request : DrawingRequest :=
    { layer := layer
      flip := c.m_context.transform.flip
      alpha := c.m_context.transform.alpha
      data := RequestData.gradient
        { top := top
          bottom := bottom
          direction := direction
          region := ⟨c.apply_translate region.p1, c.apply_translate region.p2⟩
          blend := blend } }
  { c with m_requests := c.m_requests ++ [request] }

/-- `Canvas::draw_filled_rect` (topleft/size overload). -/
def Canvas.draw_filled_rect (c : Canvas) (topleft size : Vector) (color : Color)
    (layer : Int) : Canvas :=
  let request : DrawingRequest :=
    { layer := layer
      flip := c.m_context.transform.flip
      alpha := c.m_context.transform.alpha
      data := RequestData.fillrect
        { pos := c.apply_translate topleft
          size := size
          color := { color with alpha := color.alpha * c.m_context.transform.alpha }
          radius := 0 } }
  { c with m_requests := c.m_requests ++ [request] }

/-- `Canvas::draw_filled_rect` (rect/color/radius/layer overload). -/
def Canvas.draw_filled_rect'' (c : Canvas) (rect : Rectf) (color : Color)
    (radius : ℚ) (layer : Int) : Canvas :=
  let request : DrawingRequest :=
    { layer := layer
      flip := c.m_context.transform.flip
      alpha := c.m_context.transform.alpha
      data := RequestData.fillrect
        { pos := c.apply_translate rect.p1
          size := ⟨rect.get_width, rect.get_height⟩
          color := { color with alpha := color.alpha * c.m_context.transform.alpha }
          radius := radius } }
  { c with m_requests := c.m_requests ++ [request] }

/-- `Canvas::draw_filled_rect` (rect/color/layer overload): delegates with
radius `0`. -/
def Canvas.draw_filled_rect' (c : Canvas) (rect : Rectf) (color : Color)
    (layer : Int) : Canvas :=
  c.draw_filled_rect'' rect color 0 layer

/-- `Canvas::draw_inverse_ellipse`. -/
def Canvas.draw_inverse_ellipse (c : Canvas) (pos size : Vector) (color : Color)
    (layer : Int) : Canvas :=
  let request : DrawingRequest :=
    { layer := layer
      flip := c.m_context.transform.flip
      alpha := c.m_context.transform.alpha
      data := RequestData.inverseellipse
        { pos := c.apply_translate pos
          size := size
          color := { color with alpha := color.alpha * c.m_context.transform.alpha } } }
  { c with m_requests := c.m_requests ++ [request] }

/-- `Canvas::draw_line`. -/
def Canvas.draw_line (c : Canvas) (pos1 pos2 : Vector) (color : Color)
    (layer : Int) : Canvas :=
  let request : DrawingRequest :=
    { layer := layer
      flip := c.m_context.transform.flip
      alpha := c.m_context.transform.alpha
      data := RequestData.line
        { pos := c.apply_translate pos1
          dest_pos := c.apply_translate pos2
          color := { color with alpha := color.alpha * c.m_context.transform.alpha } } }
  { c with m_requests := c.m_requests ++ [request] }

/-- `Canvas::draw_triangle`. -/
def Canvas.draw_triangle (c : Canvas) (pos1 pos2 pos3 : Vector) (color : Color)
    (layer : Int) : Canvas :=
  let request : DrawingRequest :=
    { layer := layer
      flip := c.m_context.transform.flip
      alpha := c.m_context.transform.alpha
      data := RequestData.triangle
        { pos1 := c.apply_translate pos1
          pos2 := c.apply_translate pos2
          pos3 := c.apply_translate pos3
          color := { color with alpha := color.alpha * c.m_context.transform.alpha } } }
  { c with m_requests := c.m_requests ++ [request] }

/-- `Canvas::get_pixel`.  The first component is the new canvas state; the
second is the synchronous write this call itself performs on the shared
output cell (`none` when the call only enqueues a request). -/
def Canvas.get_pixel (c : Canvas) (position : Vector) (color_out : Nat) :
    Canvas × Option Color :=
  let pos := c.apply_translate position
  if pos.x ≥ (c.m_context.viewport.get_width : ℚ) ∨
     pos.y ≥ (c.m_context.viewport.get_height : ℚ) ∨
     pos.x < 0 ∨ pos.y < 0 then
    (c, some (Color.rgb 0 0 0))
  else
    let request : DrawingRequest :=
      { layer := LAYER_GETPIXEL
        flip := 0
        alpha := 1
        data := RequestData.getpixel { pos := pos, color_ptr := color_out } }
    ({ c with m_requests := c.m_requests ++ [request] }, none)

/-- The spec's coordinate-transform formula, written from the spec's words:
`device_pos = (world_pos − floor(context.transform.translation)) + viewport.top_left`.
Kept separate from `Canvas.apply_translate` so the code's transform can be
compared against it. -/
def device_pos_spec (context : DrawingContext) (world_pos : Vector) : Vector :=
  ⟨world_pos.x - (⌊context.transform.translation.x⌋ : ℚ) + (context.viewport.left : ℚ),
   world_pos.y - (⌊context.transform.translation.y⌋ : ℚ) + (context.viewport.top : ℚ)⟩

/-! ### Sample inputs for witnesses and counterexamples -/

/-- A plain context: identity-like transform, clip `[0,100]²`, viewport
`[0,100]²`. -/
def sampleContext : DrawingContext :=
  { transform := { translation := ⟨0, 0⟩, flip := 0, alpha := 1 }
    cliprect := ⟨⟨0, 0⟩, ⟨100, 100⟩⟩
    viewport := ⟨0, 0, 100, 100⟩ }

/-- An empty canvas over `sampleContext`. -/
def sampleCanvas : Canvas := { m_context := sampleContext, m_requests := [] }

/-- A 10×10 surface. -/
def sampleSurface : Surface :=
  { width := 10, height := 10, flip := 0, region := ⟨⟨0, 0⟩, ⟨10, 10⟩⟩,
    texture := 1, displacement_texture := 2 }

/-- A default paint style. -/
def samplePaintStyle : PaintStyle := { color := Color.rgb 1 1 1, alpha := 1, blend := ⟨0⟩ }

/-- A context differing from `sampleContext` in every transform field:
negative fractional translation, flipped, half alpha. -/
def altContext : DrawingContext :=
  { transform := { translation := ⟨-7/2, 3⟩, flip := 1, alpha := 1/2 }
    cliprect := ⟨⟨0, 0⟩, ⟨100, 100⟩⟩
    viewport := ⟨0, 0, 100, 100⟩ }

/-- An empty canvas over `altContext`. -/
def altCanvas : Canvas := { m_context := altContext, m_requests := [] }

/-- A concrete fill-rect request at layer 5. -/
def sampleRequest : DrawingRequest :=
  { layer := 5, flip := 0, alpha := 1,
    data := RequestData.fillrect
      { pos := ⟨1, 2⟩, size := ⟨3, 4⟩, color := Color.rgb 1 0 0, radius := 0 } }

/-! ### Helper lemmas -/

@[simp] lemma Vector.add_def (a b : Vector) : a + b = ⟨a.x + b.x, a.y + b.y⟩ := rfl

@[simp] lemma Vector.sub_def (a b : Vector) : a - b = ⟨a.x - b.x, a.y - b.y⟩ := rfl

lemma dispatchRequest_request (r : DrawingRequest) : (dispatchRequest r).request = r := by
  obtain ⟨layer, flip, alpha, data⟩ := r
  cases data <;> rfl

lemma dispatchRequest_tag (r : DrawingRequest) : (dispatchRequest r).tag = r.data.type := by
  obtain ⟨layer, flip, alpha, data⟩ := r
  cases data <;> rfl

lemma map_request_map_dispatch (l : List DrawingRequest) :
    (l.map dispatchRequest).map PainterCall.request = l := by
  simp [List.map_map, Function.comp_def, dispatchRequest_request]

lemma renderLoop_all (l : List DrawingRequest) :
    renderLoop Filter.ALL_LAYERS l = l.map dispatchRequest := by
  induction l with
  | nil => rfl
  | cons r rest ih => simp [renderLoop, ih]

lemma renderLoop_below (l : List DrawingRequest) :
    renderLoop Filter.BELOW_LIGHTMAP l
    = (l.filter (fun r => decide (r.layer < LAYER_LIGHTMAP))).map dispatchRequest := by
  induction l with
  | nil => rfl
  | cons r rest ih =>
    by_cases h : LAYER_LIGHTMAP ≤ r.layer
    · simp [renderLoop, h, ih, List.filter_cons, not_lt.mpr h]
    · simp [renderLoop, h, ih, List.filter_cons, not_le.mp h]

lemma renderLoop_above (l : List DrawingRequest) :
    renderLoop Filter.ABOVE_LIGHTMAP l
    = (l.filter (fun r => decide (LAYER_LIGHTMAP < r.layer))).map dispatchRequest := by
  induction l with
  | nil => rfl
  | cons r rest ih =>
    by_cases h : r.layer ≤ LAYER_LIGHTMAP
    · simp [renderLoop, h, ih, List.filter_cons, not_lt.mpr h]
    · simp [renderLoop, h, ih, List.filter_cons, not_le.mp h]

lemma filter_orderedInsert_layer (k : Int) (a : DrawingRequest) (l : List DrawingRequest) :
    (List.orderedInsert layerLe a l).filter (fun r => r.layer == k)
    = if a.layer = k then a :: l.filter (fun r => r.layer == k)
      else l.filter (fun r => r.layer == k) := by
  induction l with
  | nil =>
    by_cases h : a.layer = k <;> simp [List.orderedInsert, h]
  | cons b t ih =>
    by_cases hab : layerLe a b
    · by_cases h : a.layer = k <;>
        simp [List.orderedInsert, hab, h, List.filter_cons]
    · have hba : b.layer < a.layer := lt_of_not_le (by simpa [layerLe] using hab)
      by_cases h : a.layer = k
      · have hb : ¬ b.layer = k := by omega
        simp [List.orderedInsert, hab, List.filter_cons, hb, ih, h]
      · simp [List.orderedInsert, hab, List.filter_cons, ih, h]

lemma filter_sortRequests (k : Int) (l : List DrawingRequest) :
    (sortRequests l).filter (fun r => r.layer == k) = l.filter (fun r => r.layer == k) := by
  induction l with
  | nil => rfl
  | cons a t ih =>
    have ih' : (List.insertionSort layerLe t).filter (fun r => r.layer == k)
        = t.filter (fun r => r.layer == k) := ih
    show (List.orderedInsert layerLe a (List.insertionSort layerLe t)).filter _ = _
    rw [filter_orderedInsert_layer]
    by_cases h : a.layer = k <;> simp [List.filter_cons, h, ih']

/-! ### Claim theorems -/

/-- C1: `Canvas::render` dispatches the queue as a stable sort by layer
ascending: the dispatched requests are a permutation of the enqueued ones,
their layers are ascending along the dispatch order (so a strictly lower
layer is dispatched strictly earlier), and within any one layer the
dispatch order is exactly the submission order. -/
theorem render_stable_sorted (c : Canvas) :
    ((c.render Filter.ALL_LAYERS).map PainterCall.request).Perm c.m_requests
    ∧ List.Sorted layerLe ((c.render Filter.ALL_LAYERS).map PainterCall.request)
    ∧ ∀ k : Int,
        ((c.render Filter.ALL_LAYERS).map PainterCall.request).filter (fun r => r.layer == k)
        = c.m_requests.filter (fun r => r.layer == k) := by
  have hall : c.render Filter.ALL_LAYERS = (sortRequests c.m_requests).map dispatchRequest :=
    renderLoop_all (sortRequests c.m_requests)
  have hmap : (c.render Filter.ALL_LAYERS).map PainterCall.request = sortRequests c.m_requests := by
    rw [hall, map_request_map_dispatch]
  refine ⟨?_, ?_, fun k => ?_⟩ <;> rw [hmap]
  · exact List.perm_insertionSort layerLe c.m_requests
  · exact List.sorted_insertionSort layerLe c.m_requests
  · exact filter_sortRequests k c.m_requests

/-- C7: the band filters of `Canvas::render` keep exactly the requests whose
layer is strictly below (resp. strictly above) the lightmap reference layer,
no band filter dispatches everything, and every dispatched request goes to
the Painter entry point of its own variant tag carrying that request. -/
theorem render_filter_and_dispatch :
    (∀ c : Canvas, c.render Filter.ALL_LAYERS
        = (sortRequests c.m_requests).map dispatchRequest)
    ∧ (∀ c : Canvas, c.render Filter.BELOW_LIGHTMAP
        = ((sortRequests c.m_requests).filter
            (fun r => decide (r.layer < LAYER_LIGHTMAP))).map dispatchRequest)
    ∧ (∀ c : Canvas, c.render Filter.ABOVE_LIGHTMAP
        = ((sortRequests c.m_requests).filter
            (fun r => decide (LAYER_LIGHTMAP < r.layer))).map dispatchRequest)
    ∧ (∀ request : DrawingRequest,
        (dispatchRequest request).request = request
        ∧ (dispatchRequest request).tag = request.data.type) :=
  ⟨fun c => renderLoop_all (sortRequests c.m_requests),
   fun c => renderLoop_below (sortRequests c.m_requests),
   fun c => renderLoop_above (sortRequests c.m_requests),
   fun request => ⟨dispatchRequest_request request, dispatchRequest_tag request⟩⟩

/-- C8: the Painter calls of a flush are a function of the queue contents
alone; two canvases whose queues agree produce identical dispatches under
every band filter, whatever their context transforms are at render time. -/
theorem render_reads_no_context (c1 c2 : Canvas) (filter : Filter)
    (h : c1.m_requests = c2.m_requests) : c1.render filter = c2.render filter := by
  show renderLoop filter (sortRequests c1.m_requests)
      = renderLoop filter (sortRequests c2.m_requests)
  rw [h]

/-- C10: a request whose layer is exactly `LAYER_LIGHTMAP` is skipped by
both band filters: over a `BELOW_LIGHTMAP` render and an `ABOVE_LIGHTMAP`
render of the same queue it is dispatched zero times in total. -/
theorem lightmap_layer_skipped_by_both_filters (c : Canvas) :
    ((c.render Filter.BELOW_LIGHTMAP).countP
        (fun pc => pc.request.layer == LAYER_LIGHTMAP))
    + ((c.render Filter.ABOVE_LIGHTMAP).countP
        (fun pc => pc.request.layer == LAYER_LIGHTMAP)) = 0 := by
  have hb : c.render Filter.BELOW_LIGHTMAP
      = ((sortRequests c.m_requests).filter
          (fun r => decide (r.layer < LAYER_LIGHTMAP))).map dispatchRequest :=
    renderLoop_below (sortRequests c.m_requests)
  have ha : c.render Filter.ABOVE_LIGHTMAP
      = ((sortRequests c.m_requests).filter
          (fun r => decide (LAYER_LIGHTMAP < r.layer))).map dispatchRequest :=
    renderLoop_above (sortRequests c.m_requests)
  rw [hb, ha, List.countP_map, List.countP_map]
  have h1 : ∀ r ∈ (sortRequests c.m_requests).filter
      (fun r => decide (r.layer < LAYER_LIGHTMAP)),
      ¬ ((fun pc => pc.request.layer == LAYER_LIGHTMAP) ∘ dispatchRequest) r = true := by
    intro r hr
    have := (List.mem_filter.mp hr).2
    simp only [Function.comp, dispatchRequest_request, beq_iff_eq]
    simp only [decide_eq_true_eq] at this
    omega
  have h2 : ∀ r ∈ (sortRequests c.m_requests).filter
      (fun r => decide (LAYER_LIGHTMAP < r.layer)),
      ¬ ((fun pc => pc.request.layer == LAYER_LIGHTMAP) ∘ dispatchRequest) r = true := by
    intro r hr
    have := (List.mem_filter.mp hr).2
    simp only [Function.comp, dispatchRequest_request, beq_iff_eq]
    simp only [decide_eq_true_eq] at this
    omega
  rw [List.countP_eq_zero.mpr h1, List.countP_eq_zero.mpr h2]

/-- C2: a pixel query whose transformed position fails the viewport test is
resolved synchronously to opaque black with the queue untouched; otherwise
the call performs no write itself and appends exactly one `GetPixelRequest`
holding the given output cell. -/
theorem get_pixel_viewport_semantics (c : Canvas) (position : Vector) (color_out : Nat) :
    (((c.apply_translate position).x ≥ (c.m_context.viewport.get_width : ℚ) ∨
      (c.apply_translate position).y ≥ (c.m_context.viewport.get_height : ℚ) ∨
      (c.apply_translate position).x < 0 ∨ (c.apply_translate position).y < 0) →
      (c.get_pixel position color_out).2 = some (Color.rgb 0 0 0)
      ∧ ((c.get_pixel position color_out).1).m_requests = c.m_requests)
    ∧ (¬ ((c.apply_translate position).x ≥ (c.m_context.viewport.get_width : ℚ) ∨
          (c.apply_translate position).y ≥ (c.m_context.viewport.get_height : ℚ) ∨
          (c.apply_translate position).x < 0 ∨ (c.apply_translate position).y < 0) →
      (c.get_pixel position color_out).2 = none
      ∧ ((c.get_pixel position color_out).1).m_requests
        = c.m_requests ++
            [{ layer := LAYER_GETPIXEL
               flip := 0
               alpha := 1
               data := RequestData.getpixel
                 { pos := c.apply_translate position, color_ptr := color_out } }]) := by
  constructor
  · intro h
    have heq : c.get_pixel position color_out = (c, some (Color.rgb 0 0 0)) := by
      simp only [Canvas.get_pixel]
      rw [if_pos h]
    rw [heq]
    exact ⟨rfl, rfl⟩
  · intro h
    have heq : c.get_pixel position color_out
        = ({ c with m_requests := c.m_requests ++
              [{ layer := LAYER_GETPIXEL
                 flip := 0
                 alpha := 1
                 data := RequestData.getpixel
                   { pos := c.apply_translate position, color_ptr := color_out } }] }, none) := by
      simp only [Canvas.get_pixel]
      rw [if_neg h]
    rw [heq]
    exact ⟨rfl, rfl⟩

/-- C2 witness: the spec's example query at `(-1, 0)` resolves synchronously
to opaque black and queues nothing. -/
theorem get_pixel_viewport_semantics_witness :
    (sampleCanvas.get_pixel ⟨-1, 0⟩ 7).2 = some (Color.rgb 0 0 0)
    ∧ ((sampleCanvas.get_pixel ⟨-1, 0⟩ 7).1).m_requests = sampleCanvas.m_requests :=
  (get_pixel_viewport_semantics sampleCanvas ⟨-1, 0⟩ 7).1
    (Or.inr (Or.inr (Or.inl (by
      norm_num [Canvas.apply_translate, Vector.to_int_vec, sampleCanvas, sampleContext]))))

/-- C9: every request `Canvas::get_pixel` adds to the queue is a pixel-read
request at the fixed layer `LAYER_GETPIXEL`; the operation takes no layer
parameter, so its place in the sorted dispatch order is decided by that
constant and submission order alone. -/
theorem get_pixel_layer_fixed (c : Canvas) (position : Vector) (color_out : Nat)
    (r : DrawingRequest) (hr : r ∈ ((c.get_pixel position color_out).1).m_requests) :
    r ∈ c.m_requests ∨ (r.layer = LAYER_GETPIXEL ∧ r.data.type = RequestType.GETPIXEL) := by
  by_cases h : (c.apply_translate position).x ≥ (c.m_context.viewport.get_width : ℚ) ∨
      (c.apply_translate position).y ≥ (c.m_context.viewport.get_height : ℚ) ∨
      (c.apply_translate position).x < 0 ∨ (c.apply_translate position).y < 0
  · have heq : c.get_pixel position color_out = (c, some (Color.rgb 0 0 0)) := by
      simp only [Canvas.get_pixel]
      rw [if_pos h]
    rw [heq] at hr
    exact Or.inl hr
  · have heq : c.get_pixel position color_out
        = ({ c with m_requests := c.m_requests ++
              [{ layer := LAYER_GETPIXEL
                 flip := 0
                 alpha := 1
                 data := RequestData.getpixel
                   { pos := c.apply_translate position, color_ptr := color_out } }] }, none) := by
      simp only [Canvas.get_pixel]
      rw [if_neg h]
    rw [heq] at hr
    rcases List.mem_append.mp hr with hmem | hmem
    · exact Or.inl hmem
    · rcases List.mem_singleton.mp hmem with rfl
      exact Or.inr ⟨rfl, rfl⟩

/-- C9 witness: an in-viewport query on the empty canvas enqueues a request
whose layer is `LAYER_GETPIXEL` and whose tag is `GETPIXEL`. -/
theorem get_pixel_layer_fixed_witness :
    (⟨LAYER_GETPIXEL, 0, 1, RequestData.getpixel ⟨⟨1, 2⟩, 7⟩⟩ : DrawingRequest)
        ∈ sampleCanvas.m_requests
    ∨ ((⟨LAYER_GETPIXEL, 0, 1, RequestData.getpixel ⟨⟨1, 2⟩, 7⟩⟩ : DrawingRequest).layer
          = LAYER_GETPIXEL
       ∧ (⟨LAYER_GETPIXEL, 0, 1, RequestData.getpixel ⟨⟨1, 2⟩, 7⟩⟩ : DrawingRequest).data.type
          = RequestType.GETPIXEL) :=
  get_pixel_layer_fixed sampleCanvas ⟨1, 2⟩ 7 _ (by
    norm_num [Canvas.get_pixel, Canvas.apply_translate, Vector.to_int_vec,
      sampleCanvas, sampleContext, Rect.get_width, Rect.get_height])

/-- C8 witness: the same one-request queue under two contexts that disagree
in translation, flip and alpha renders to identical Painter calls. -/
theorem render_reads_no_context_witness :
    Canvas.render { m_context := sampleContext, m_requests := [sampleRequest] }
        Filter.ALL_LAYERS
    = Canvas.render { m_context := altContext, m_requests := [sampleRequest] }
        Filter.ALL_LAYERS :=
  render_reads_no_context
    { m_context := sampleContext, m_requests := [sampleRequest] }
    { m_context := altContext, m_requests := [sampleRequest] }
    Filter.ALL_LAYERS rfl

/-- C3 counterexample: `draw_surface_batch` with one source rectangle and
two destination rectangles does not fail any precondition check: the body
of `Canvas::draw_surface_batch` contains no length assertion (only
`assert(surface != nullptr)`), so the call succeeds and enqueues one
request that keeps the mismatched lengths 1 and 2. -/
theorem draw_surface_batch_mismatch_accepted :
    ((sampleCanvas.draw_surface_batch sampleSurface
        [⟨⟨0, 0⟩, ⟨1, 1⟩⟩] [⟨⟨0, 0⟩, ⟨1, 1⟩⟩, ⟨⟨2, 2⟩, ⟨3, 3⟩⟩]
        (Color.rgb 1 1 1) 5).m_requests.map
          (fun r => (r.data.srcrects.length, r.data.dstrects.length))) = [(1, 2)] := by
  simp [Canvas.draw_surface_batch, sampleCanvas, RequestData.srcrects, RequestData.dstrects]

/-- C3 amended: `draw_surface_batch` never checks the two sequence lengths
against each other; for any (also mismatched) sequences it succeeds,
enqueueing exactly one request that stores the source rectangles as given
and one destination rectangle per given destination rectangle — no
truncation and no assertion. -/
theorem draw_surface_batch_no_length_check (c : Canvas) (surface : Surface)
    (srcrects dstrects : List Rectf) (color : Color) (layer : Int) :
    ∃ req : DrawingRequest,
      (c.draw_surface_batch surface srcrects dstrects color layer).m_requests
        = c.m_requests ++ [req]
      ∧ req.data.srcrects = srcrects
      ∧ req.data.dstrects.length = dstrects.length := by
  refine ⟨_, rfl, rfl, ?_⟩
  simp [Canvas.draw_surface_batch, RequestData.dstrects]

/-- C4 counterexample: `draw_surface_part` performs no clip rejection.
Under `sampleContext` (identity transform, so device space equals world
space) the destination rectangle `[200,210]²` lies fully outside the clip
rectangle `[0,100]²`, yet the call still allocates and enqueues a
request. -/
theorem draw_surface_part_ignores_clip :
    ((sampleCanvas.draw_surface_part sampleSurface ⟨⟨0, 0⟩, ⟨10, 10⟩⟩
        ⟨⟨200, 200⟩, ⟨210, 210⟩⟩ 5 samplePaintStyle).m_requests).length = 1 := by
  simp [Canvas.draw_surface_part, sampleCanvas]

/-- C4 amended: only `draw_surface` (and its delegating overload) performs
clip rejection: when the position/size box misses the clip rectangle — the
code's disjunction below, which for closed rectangles is exactly "the
bounding box lies fully outside the clip rectangle" — it returns without
enqueueing anything.  (`draw_surface_part`, `draw_surface_scaled` and
`draw_surface_batch` always enqueue, see the counterexample.) -/
theorem draw_surface_clip_rejection (c : Canvas) (surface : Surface)
    (position : Vector) (angle : ℚ) (color : Color) (blend : Blend) (layer : Int)
    (h : position.x > c.m_context.cliprect.get_right ∨
         position.y > c.m_context.cliprect.get_bottom ∨
         position.x + (surface.width : ℚ) < c.m_context.cliprect.get_left ∨
         position.y + (surface.height : ℚ) < c.m_context.cliprect.get_top) :
    (c.draw_surface surface position angle color blend layer).m_requests = c.m_requests := by
  simp only [Canvas.draw_surface]
  rw [if_pos h]

/-- C4 witness: a surface at `x = 200` against the clip rectangle
`[0,100]²` is rejected, leaving the queue empty. -/
theorem draw_surface_clip_rejection_witness :
    (sampleCanvas.draw_surface sampleSurface ⟨200, 0⟩ 0 (Color.rgb 1 1 1) ⟨0⟩ 5).m_requests
      = sampleCanvas.m_requests :=
  draw_surface_clip_rejection sampleCanvas sampleSurface ⟨200, 0⟩ 0 (Color.rgb 1 1 1) ⟨0⟩ 5
    (Or.inl (by norm_num [sampleCanvas, sampleContext, Rectf.get_right]))

/-- C5 counterexample: with transform alpha `1/2`, `draw_surface` with a
caller color of alpha `1/2` stores the caller color unchanged (alpha
`1/2`), not the claimed product `1/4`: texture requests keep the transform
alpha in the request's separate `alpha` field instead of folding it into
the color. -/
theorem draw_surface_color_alpha_unfolded :
    ((altCanvas.draw_surface sampleSurface ⟨0, 0⟩ 0 ⟨1, 1, 1, 1/2⟩ ⟨0⟩ 5).m_requests.map
        (fun r => r.data.color)) = [some ⟨1, 1, 1, 1/2⟩]
    ∧ ¬ ((1 : ℚ)/2 = (1/2) * (1/2)) := by
  constructor
  · norm_num [Canvas.draw_surface, altCanvas, altContext, sampleSurface, Rectf.get_right,
      Rectf.get_bottom, Rectf.get_left, Rectf.get_top, RequestData.color]
  · norm_num

/-- C5 amended: every request records the context's transform alpha at
construction time, but only the fill-rect, inverse-ellipse, line and
triangle operations fold it into the stored color's alpha; the texture
operations (`draw_surface`, `draw_surface_part`, `draw_surface_batch`) and
`draw_gradient` store their caller colors unchanged and record the
transform alpha (times the style alpha for `draw_surface_part`) in the
request's separate `alpha` field. -/
theorem request_alpha_construction :
    (∀ (c : Canvas) (topleft size : Vector) (color : Color) (layer : Int),
      ((c.draw_filled_rect topleft size color layer).m_requests.map
          (fun r => (r.data.color, r.alpha)))
        = c.m_requests.map (fun r => (r.data.color, r.alpha))
          ++ [(some { color with alpha := color.alpha * c.m_context.transform.alpha },
               c.m_context.transform.alpha)])
    ∧ (∀ (c : Canvas) (rect : Rectf) (color : Color) (radius : ℚ) (layer : Int),
      ((c.draw_filled_rect'' rect color radius layer).m_requests.map
          (fun r => (r.data.color, r.alpha)))
        = c.m_requests.map (fun r => (r.data.color, r.alpha))
          ++ [(some { color with alpha := color.alpha * c.m_context.transform.alpha },
               c.m_context.transform.alpha)])
    ∧ (∀ (c : Canvas) (pos size : Vector) (color : Color) (layer : Int),
      ((c.draw_inverse_ellipse pos size color layer).m_requests.map
          (fun r => (r.data.color, r.alpha)))
        = c.m_requests.map (fun r => (r.data.color, r.alpha))
          ++ [(some { color with alpha := color.alpha * c.m_context.transform.alpha },
               c.m_context.transform.alpha)])
    ∧ (∀ (c : Canvas) (pos1 pos2 : Vector) (color : Color) (layer : Int),
      ((c.draw_line pos1 pos2 color layer).m_requests.map
          (fun r => (r.data.color, r.alpha)))
        = c.m_requests.map (fun r => (r.data.color, r.alpha))
          ++ [(some { color with alpha := color.alpha * c.m_context.transform.alpha },
               c.m_context.transform.alpha)])
    ∧ (∀ (c : Canvas) (pos1 pos2 pos3 : Vector) (color : Color) (layer : Int),
      ((c.draw_triangle pos1 pos2 pos3 color layer).m_requests.map
          (fun r => (r.data.color, r.alpha)))
        = c.m_requests.map (fun r => (r.data.color, r.alpha))
          ++ [(some { color with alpha := color.alpha * c.m_context.transform.alpha },
               c.m_context.transform.alpha)])
    ∧ (∀ (c : Canvas) (surface : Surface) (position : Vector) (angle : ℚ)
        (color : Color) (blend : Blend) (layer : Int),
      (c.draw_surface surface position angle color blend layer).m_requests = c.m_requests
      ∨ ((c.draw_surface surface position angle color blend layer).m_requests.map
            (fun r => (r.data.color, r.alpha)))
          = c.m_requests.map (fun r => (r.data.color, r.alpha))
            ++ [(some color, c.m_context.transform.alpha)])
    ∧ (∀ (c : Canvas) (surface : Surface) (srcrect dstrect : Rectf) (layer : Int)
        (style : PaintStyle),
      ((c.draw_surface_part surface srcrect dstrect layer style).m_requests.map
          (fun r => (r.data.color, r.alpha)))
        = c.m_requests.map (fun r => (r.data.color, r.alpha))
          ++ [(some style.get_color, c.m_context.transform.alpha * style.get_alpha)])
    ∧ (∀ (c : Canvas) (surface : Surface) (srcrects dstrects : List Rectf)
        (color : Color) (layer : Int),
      ((c.draw_surface_batch surface srcrects dstrects color layer).m_requests.map
          (fun r => (r.data.color, r.alpha)))
        = c.m_requests.map (fun r => (r.data.color, r.alpha))
          ++ [(some color, c.m_context.transform.alpha)])
    ∧ (∀ (c : Canvas) (top bottom : Color) (layer : Int) (direction : GradientDirection)
        (region : Rectf) (blend : Blend),
      ((c.draw_gradient top bottom layer direction region blend).m_requests.map
          (fun r => (r.data.top, r.data.bottom, r.alpha)))
        = c.m_requests.map (fun r => (r.data.top, r.data.bottom, r.alpha))
          ++ [(some top, some bottom, c.m_context.transform.alpha)]) := by
  refine ⟨?_, ?_, ?_, ?_, ?_, ?_, ?_, ?_, ?_⟩
  · intro c topleft size color layer
    simp [Canvas.draw_filled_rect, RequestData.color]
  · intro c rect color radius layer
    simp [Canvas.draw_filled_rect'', RequestData.color]
  · intro c pos size color layer
    simp [Canvas.draw_inverse_ellipse, RequestData.color]
  · intro c pos1 pos2 color layer
    simp [Canvas.draw_line, RequestData.color]
  · intro c pos1 pos2 pos3 color layer
    simp [Canvas.draw_triangle, RequestData.color]
  · intro c surface position angle color blend layer
    by_cases h : position.x > c.m_context.cliprect.get_right ∨
        position.y > c.m_context.cliprect.get_bottom ∨
        position.x + (surface.width : ℚ) < c.m_context.cliprect.get_left ∨
        position.y + (surface.height : ℚ) < c.m_context.cliprect.get_top
    · left
      simp only [Canvas.draw_surface]
      rw [if_pos h]
    · right
      simp only [Canvas.draw_surface]
      rw [if_neg h]
      simp [RequestData.color]
  · intro c surface srcrect dstrect layer style
    simp [Canvas.draw_surface_part, RequestData.color]
  · intro c surface srcrects dstrects color layer
    simp [Canvas.draw_surface_batch, RequestData.color]
  · intro c top bottom layer direction region blend
    simp [Canvas.draw_gradient, RequestData.top, RequestData.bottom]

/-- The code's `apply_translate` computes exactly the spec's formula. -/
lemma apply_translate_device (c : Canvas) (pos : Vector) :
    c.apply_translate pos = device_pos_spec c.m_context pos := rfl

/-- C6: every positional field stored by every draw operation is the world
input mapped through
`device_pos = (world_pos − floor(translation)) + viewport.top_left`,
computed at submission time (the formula holds for all rational inputs,
negative and fractional translation components included). -/
theorem device_space_positions :
    (∀ (c : Canvas) (pos : Vector), c.apply_translate pos = device_pos_spec c.m_context pos)
    ∧ (∀ (c : Canvas) (topleft size : Vector) (color : Color) (layer : Int),
      ((c.draw_filled_rect topleft size color layer).m_requests.map
          (fun r => r.data.positions))
        = c.m_requests.map (fun r => r.data.positions)
          ++ [[device_pos_spec c.m_context topleft]])
    ∧ (∀ (c : Canvas) (rect : Rectf) (color : Color) (radius : ℚ) (layer : Int),
      ((c.draw_filled_rect'' rect color radius layer).m_requests.map
          (fun r => r.data.positions))
        = c.m_requests.map (fun r => r.data.positions)
          ++ [[device_pos_spec c.m_context rect.p1]])
    ∧ (∀ (c : Canvas) (pos size : Vector) (color : Color) (layer : Int),
      ((c.draw_inverse_ellipse pos size color layer).m_requests.map
          (fun r => r.data.positions))
        = c.m_requests.map (fun r => r.data.positions)
          ++ [[device_pos_spec c.m_context pos]])
    ∧ (∀ (c : Canvas) (pos1 pos2 : Vector) (color : Color) (layer : Int),
      ((c.draw_line pos1 pos2 color layer).m_requests.map (fun r => r.data.positions))
        = c.m_requests.map (fun r => r.data.positions)
          ++ [[device_pos_spec c.m_context pos1, device_pos_spec c.m_context pos2]])
    ∧ (∀ (c : Canvas) (pos1 pos2 pos3 : Vector) (color : Color) (layer : Int),
      ((c.draw_triangle pos1 pos2 pos3 color layer).m_requests.map
          (fun r => r.data.positions))
        = c.m_requests.map (fun r => r.data.positions)
          ++ [[device_pos_spec c.m_context pos1, device_pos_spec c.m_context pos2,
               device_pos_spec c.m_context pos3]])
    ∧ (∀ (c : Canvas) (top bottom : Color) (layer : Int) (direction : GradientDirection)
        (region : Rectf) (blend : Blend),
      ((c.draw_gradient top bottom layer direction region blend).m_requests.map
          (fun r => r.data.positions))
        = c.m_requests.map (fun r => r.data.positions)
          ++ [[device_pos_spec c.m_context region.p1, device_pos_spec c.m_context region.p2]])
    ∧ (∀ (c : Canvas) (surface : Surface) (srcrect dstrect : Rectf) (layer : Int)
        (style : PaintStyle),
      ((c.draw_surface_part surface srcrect dstrect layer style).m_requests.map
          (fun r => r.data.positions))
        = c.m_requests.map (fun r => r.data.positions)
          ++ [[device_pos_spec c.m_context dstrect.p1]])
    ∧ (∀ (c : Canvas) (surface : Surface) (srcrects dstrects : List Rectf)
        (color : Color) (layer : Int),
      ((c.draw_surface_batch surface srcrects dstrects color layer).m_requests.map
          (fun r => r.data.positions))
        = c.m_requests.map (fun r => r.data.positions)
          ++ [dstrects.map (fun d => device_pos_spec c.m_context d.p1)])
    ∧ (∀ (c : Canvas) (surface : Surface) (position : Vector) (angle : ℚ)
        (color : Color) (blend : Blend) (layer : Int),
      (c.draw_surface surface position angle color blend layer).m_requests = c.m_requests
      ∨ ((c.draw_surface surface position angle color blend layer).m_requests.map
            (fun r => r.data.positions))
          = c.m_requests.map (fun r => r.data.positions)
            ++ [[device_pos_spec c.m_context position]])
    ∧ (∀ (c : Canvas) (position : Vector) (color_out : Nat),
      (((c.get_pixel position color_out).1).m_requests.map (fun r => r.data.positions))
        = c.m_requests.map (fun r => r.data.positions)
      ∨ (((c.get_pixel position color_out).1).m_requests.map (fun r => r.data.positions))
          = c.m_requests.map (fun r => r.data.positions)
            ++ [[device_pos_spec c.m_context position]]) := by
  refine ⟨?_, ?_, ?_, ?_, ?_, ?_, ?_, ?_, ?_, ?_, ?_⟩
  · intro c pos
    exact apply_translate_device c pos
  · intro c topleft size color layer
    simp [Canvas.draw_filled_rect, RequestData.positions, apply_translate_device]
  · intro c rect color radius layer
    simp [Canvas.draw_filled_rect'', RequestData.positions, apply_translate_device]
  · intro c pos size color layer
    simp [Canvas.draw_inverse_ellipse, RequestData.positions, apply_translate_device]
  · intro c pos1 pos2 color layer
    simp [Canvas.draw_line, RequestData.positions, apply_translate_device]
  · intro c pos1 pos2 pos3 color layer
    simp [Canvas.draw_triangle, RequestData.positions, apply_translate_device]
  · intro c top bottom layer direction region blend
    simp [Canvas.draw_gradient, RequestData.positions, apply_translate_device]
  · intro c surface srcrect dstrect layer style
    simp [Canvas.draw_surface_part, RequestData.positions, Rectf.fromPosSize,
      apply_translate_device]
  · intro c surface srcrects dstrects color layer
    simp [Canvas.draw_surface_batch, RequestData.positions, Rectf.fromPosSize,
      List.map_map, Function.comp_def, apply_translate_device]
  · intro c surface position angle color blend layer
    by_cases h : position.x > c.m_context.cliprect.get_right ∨
        position.y > c.m_context.cliprect.get_bottom ∨
        position.x + (surface.width : ℚ) < c.m_context.cliprect.get_left ∨
        position.y + (surface.height : ℚ) < c.m_context.cliprect.get_top
    · left
      simp only [Canvas.draw_surface]
      rw [if_pos h]
    · right
      simp only [Canvas.draw_surface]
      rw [if_neg h]
      simp [RequestData.positions, Rectf.fromPosSize, apply_translate_device]
  · intro c position color_out
    by_cases h : (c.apply_translate position).x ≥ (c.m_context.viewport.get_width : ℚ) ∨
        (c.apply_translate position).y ≥ (c.m_context.viewport.get_height : ℚ) ∨
        (c.apply_translate position).x < 0 ∨ (c.apply_translate position).y < 0
    · left
      have heq : c.get_pixel position color_out = (c, some (Color.rgb 0 0 0)) := by
        simp only [Canvas.get_pixel]
        rw [if_pos h]
      rw [heq]
    · right
      have heq : c.get_pixel position color_out
          = ({ c with m_requests := c.m_requests ++
                [{ layer := LAYER_GETPIXEL
                   flip := 0
                   alpha := 1
                   data := RequestData.getpixel
                     { pos := c.apply_translate position, color_ptr := color_out } }] }, none) := by
        simp only [Canvas.get_pixel]
        rw [if_neg h]
      rw [heq]
      simp [RequestData.positions, apply_translate_device]

end Video
